import Mathlib

/-!
Verification of the entity adapter layer of the Honeywell Lyric
integration (`custom_components/lyric_my/entity.py`).

The Python code is shallowly embedded: Python dictionaries become
association lists with `dictGet` lookup, raised exceptions become the
`Except.error` branch, a Python method that can implicitly return `None`
returns an `Option`, and every property getter is a pure function of the
adapter's stored state and the coordinator's current snapshot (the getter
bodies contain no assignment, so purity is the faithful translation; the
snapshot is passed explicitly at each access, which models the re-resolution
against `self.coordinator.data`).
-/

/-- Lookup in a Python dict modelled as an association list:
`d.get(k)` / `d[k]` key search. -/
def dictGet {α : Type} (l : List (String × α)) (k : String) : Option α :=
  (l.find? (fun p => p.1 == k)).map (fun p => p.2)

/-- A value stored in a device's externally defined attribute bag: either a
plain string or a nested mapping of strings (the shape the code reads via
`attributes.get("deviceSettings", None)["userDefinedName"]`). -/
inductive AttrValue where
  | str : String → AttrValue
  | obj : List (String × String) → AttrValue
deriving DecidableEq

/-- `aiolyric.objects.priority.LyricAccessory`: an accessory scoped in a room. -/
structure LyricAccessory where
  id : String
deriving DecidableEq

/-- `aiolyric.objects.priority.LyricRoom`: a room owning accessories. -/
structure LyricRoom where
  id : String
  room_name : String
  accessories : List LyricAccessory
deriving DecidableEq

/-- `aiolyric.objects.device.LyricDevice`: an externally defined attribute bag. -/
structure LyricDevice where
  mac_id : String
  device_id : String
  name : String
  device_model : String
  device_type : String
  attributes : List (String × AttrValue)
deriving DecidableEq

/-- `aiolyric.objects.location.LyricLocation`: a location owning a device
mapping (`devices_dict`) and an ordered device list (`devices`). -/
structure LyricLocation where
  location_id : String
  devices_dict : List (String × LyricDevice)
  devices : List LyricDevice
deriving DecidableEq

/-- The coordinator snapshot (`coordinator.data`, an `aiolyric.Lyric`):
`locations_dict` maps location id to location, `rooms_dict` maps a MAC id
to a mapping of room id to room. -/
structure Lyric where
  locations_dict : List (String × LyricLocation)
  rooms_dict : List (String × List (String × LyricRoom))
deriving DecidableEq

/-- `homeassistant.helpers.device_registry.DeviceInfo`: the device-registry
descriptor value object. The identifier and connection sets are singletons
in this code, modelled as lists. -/
structure DeviceInfo where
  identifiers : List (String × String)
  connections : List (String × String)
  manufacturer : String
  model : String
  name : String
  via_device : Option (String × String)
deriving DecidableEq

/-- `homeassistant.helpers.device_registry.CONNECTION_NETWORK_MAC`. -/
def CONNECTION_NETWORK_MAC : String := "mac"

/-- Modelled from the spec: `DOMAIN` is imported from `const.py`, which is
not part of the sources; its exact value is never relied on below. -/
def DOMAIN : String := "lyric_my"

/-- State of `LyricEntity` after `__init__`: the unique key, the location
object passed at construction (the code stores the whole object but only
ever reads its `location_id`), and the device's MAC id. -/
structure LyricEntity where
  _key : String
  _location : LyricLocation
  _mac_id : String
deriving DecidableEq

/-- `LyricEntity.__init__(coordinator, location, device, key)`. -/
def LyricEntity.init (location : LyricLocation) (device : LyricDevice)
    (key : String) : LyricEntity :=
  { _key := key, _location := location, _mac_id := device.mac_id }

/-- `LyricEntity.unique_id`: returns the stored key. -/
def LyricEntity.unique_id (e : LyricEntity) : String := e._key

/-- `LyricEntity.location`: `self.coordinator.data.locations_dict[self._location.location_id]`;
a missing key raises `KeyError`. -/
def LyricEntity.location (data : Lyric) (e : LyricEntity) :
    Except String LyricLocation :=
  match dictGet data.locations_dict e._location.location_id with
  | some l => .ok l
  | none => .error "KeyError"

/-- `LyricEntity.device`: `self.location.devices_dict[self._mac_id]`;
a missing key raises `KeyError`. -/
def LyricEntity.device (data : Lyric) (e : LyricEntity) :
    Except String LyricDevice :=
  match e.location data with
  | .error msg => .error msg
  | .ok loc =>
    match dictGet loc.devices_dict e._mac_id with
    | some d => .ok d
    | none => .error "KeyError"

/-- `LyricDeviceEntity` adds no state over `LyricEntity`. -/
abbrev LyricDeviceEntity := LyricEntity

/-- `LyricDeviceEntity.device_info`: registry descriptor keyed by MAC,
manufacturer "Honeywell", model from the device's `device_model`, name
`f"{self.device.name} Thermostat"`. -/
def LyricDeviceEntity.device_info (data : Lyric) (e : LyricDeviceEntity) :
    Except String DeviceInfo :=
  match LyricEntity.device data e with
  | .error msg => .error msg
  | .ok dev =>
    .ok { identifiers := [(CONNECTION_NETWORK_MAC, e._mac_id)],
          connections := [(CONNECTION_NETWORK_MAC, e._mac_id)],
          manufacturer := "Honeywell",
          model := dev.device_model,
          name := dev.name ++ " Thermostat",
          via_device := none }

/-- State of `LyricAccessoryEntity` after `__init__`: the base state plus
the room id and the accessory id. -/
structure LyricAccessoryEntity where
  base : LyricEntity
  _room_id : String
  _accessory_id : String
deriving DecidableEq

/-- `LyricAccessoryEntity.__init__(coordinator, location, device, room, accessory, key)`. -/
def LyricAccessoryEntity.init (location : LyricLocation) (device : LyricDevice)
    (room : LyricRoom) (accessory : LyricAccessory) (key : String) :
    LyricAccessoryEntity :=
  { base := LyricEntity.init location device key,
    _room_id := room.id, _accessory_id := accessory.id }

/-- `LyricAccessoryEntity.room`:
`self.coordinator.data.rooms_dict[self._mac_id][self._room_id]`,
a two-level keyed lookup raising `KeyError` on either miss. -/
def LyricAccessoryEntity.room (data : Lyric) (e : LyricAccessoryEntity) :
    Except String LyricRoom :=
  match dictGet data.rooms_dict e.base._mac_id with
  | none => .error "KeyError"
  | some m =>
    match dictGet m e._room_id with
    | none => .error "KeyError"
    | some r => .ok r

/-- `LyricAccessoryEntity.accessory`: `next(a for a in self.room.accessories
if a.id == self._accessory_id)`; an exhausted generator raises `StopIteration`. -/
def LyricAccessoryEntity.accessory (data : Lyric) (e : LyricAccessoryEntity) :
    Except String LyricAccessory :=
  match e.room data with
  | .error msg => .error msg
  | .ok r =>
    match r.accessories.find? (fun a => a.id == e._accessory_id) with
    | some a => .ok a
    | none => .error "StopIteration"

/-- `LyricAccessoryEntity.device_info`: identifier namespaced under
`f"{CONNECTION_NETWORK_MAC}_room_accessory"` with value
`f"{mac}_room{room_id}_accessory{accessory_id}"`, manufacturer "Honeywell",
fixed model "RCHTSENSOR", name `f"{self.room.room_name} Sensor"`, and a
`via_device` reference keyed by the MAC id. -/
def LyricAccessoryEntity.device_info (data : Lyric) (e : LyricAccessoryEntity) :
    Except String DeviceInfo :=
  match e.room data with
  | .error msg => .error msg
  | .ok r =>
    .ok { identifiers := [(CONNECTION_NETWORK_MAC ++ "_room_accessory",
            e.base._mac_id ++ "_room" ++ e._room_id ++ "_accessory"
              ++ e._accessory_id)],
          connections := [],
          manufacturer := "Honeywell",
          model := "RCHTSENSOR",
          name := r.room_name ++ " Sensor",
          via_device := some (CONNECTION_NETWORK_MAC, e.base._mac_id) }

/-- State of `LyricLeakEntity` after `__init__`: the unique key, the
location object passed at construction, and the device's `device_id`
(leak devices are keyed by device id, not MAC). -/
structure LyricLeakEntity where
  _key : String
  _location : LyricLocation
  _device_id : String
deriving DecidableEq

/-- `LyricLeakEntity.__init__(coordinator, location, device, key)`. -/
def LyricLeakEntity.init (location : LyricLocation) (device : LyricDevice)
    (key : String) : LyricLeakEntity :=
  { _key := key, _location := location, _device_id := device.device_id }

/-- `LyricLeakEntity.unique_id`: returns the stored key. -/
def LyricLeakEntity.unique_id (e : LyricLeakEntity) : String := e._key

/-- `LyricLeakEntity.location`: same keyed lookup as the base entity. -/
def LyricLeakEntity.location (data : Lyric) (e : LyricLeakEntity) :
    Except String LyricLocation :=
  match dictGet data.locations_dict e._location.location_id with
  | some l => .ok l
  | none => .error "KeyError"

/-- `LyricLeakEntity.device`: `devices_dict.get(self._device_id)`; on a hit
(device objects are truthy) returns that device; on a miss, scans
`self.location.devices` and returns the first entry whose `device_id`
equals the stored id (the else branch only emits debug logs); falling off
the loop returns `None` implicitly, modelled as `.ok none`. -/
def LyricLeakEntity.device (data : Lyric) (e : LyricLeakEntity) :
    Except String (Option LyricDevice) :=
  match e.location data with
  | .error msg => .error msg
  | .ok loc =>
    match dictGet loc.devices_dict e._device_id with
    | some d => .ok (some d)
    | none => .ok (loc.devices.find? (fun dev => dev.device_id == e._device_id))

/-- `LyricLeakEntity.device_info`: identifier `(DOMAIN, device_id)`,
manufacturer "Honeywell", model from `device_type`, name
`f"{self.device.attributes.get("deviceSettings", None)["userDefinedName"]} {self.device.device_type}"`.
When `device` returned `None`, the attribute access raises `AttributeError`;
when `deviceSettings` is absent, subscripting `None` raises `TypeError`;
subscripting a string by a string key raises `TypeError`; a mapping without
`userDefinedName` raises `KeyError`. -/
def LyricLeakEntity.device_info (data : Lyric) (e : LyricLeakEntity) :
    Except String DeviceInfo :=
  match e.device data with
  | .error msg => .error msg
  | .ok none => .error "AttributeError"
  | .ok (some dev) =>
    match dictGet dev.attributes "deviceSettings" with
    | none => .error "TypeError"
    | some (.str _) => .error "TypeError"
    | some (.obj settings) =>
      match dictGet settings "userDefinedName" with
      | none => .error "KeyError"
      | some udn =>
        .ok { identifiers := [(DOMAIN, e._device_id)],
              connections := [],
              manufacturer := "Honeywell",
              model := dev.device_type,
              name := udn ++ " " ++ dev.device_type,
              via_device := none }

/-- The identifiers a base/device adapter stores: unique key, the stored
location object's id, the MAC id. -/
def LyricEntity.ids (e : LyricEntity) : String × String × String :=
  (e._key, e._location.location_id, e._mac_id)

/-- The identifiers an accessory adapter stores: the base identifiers plus
room id and accessory id. -/
def LyricAccessoryEntity.ids (e : LyricAccessoryEntity) :
    (String × String × String) × String × String :=
  (e.base.ids, e._room_id, e._accessory_id)

/-- The identifiers a leak adapter stores: unique key, the stored location
object's id, the device id. -/
def LyricLeakEntity.ids (e : LyricLeakEntity) : String × String × String :=
  (e._key, e._location.location_id, e._device_id)

/-- Sample thermostat device used by witnesses. -/
def devA : LyricDevice :=
  { mac_id := "AA:BB", device_id := "dA", name := "Office",
    device_model := "T9", device_type := "Thermostat", attributes := [] }

/-- Sample leak device, found only through the fallback scan. -/
def devLeak : LyricDevice :=
  { mac_id := "", device_id := "d1", name := "Leak1",
    device_model := "", device_type := "WaterLeakDetector",
    attributes := [("deviceSettings", .obj [("userDefinedName", "Basement")])] }

/-- Sample non-matching device placed ahead of the leak device. -/
def devOther : LyricDevice :=
  { mac_id := "", device_id := "d0", name := "Leak0",
    device_model := "", device_type := "WaterLeakDetector", attributes := [] }

/-- Sample duplicate of the leak device, placed after it. -/
def devLeak2 : LyricDevice :=
  { mac_id := "", device_id := "d1", name := "Leak2",
    device_model := "", device_type := "WaterLeakDetector", attributes := [] }

/-- Sample accessory with id 1. -/
def acc1 : LyricAccessory := { id := "1" }

/-- Sample accessory with id 2. -/
def acc2 : LyricAccessory := { id := "2" }

/-- Sample accessory with id 3, absent from the sample room. -/
def acc3 : LyricAccessory := { id := "3" }

/-- Sample room holding accessories 1 and 2. -/
def room0 : LyricRoom := { id := "1", room_name := "Kitchen", accessories := [acc1, acc2] }

/-- Sample location: the thermostat is keyed by MAC in `devices_dict`; the
leak devices appear only in the ordered `devices` list. -/
def loc0 : LyricLocation :=
  { location_id := "L1", devices_dict := [("AA:BB", devA)],
    devices := [devOther, devLeak, devLeak2] }

/-- Sample location with the same id as `loc0` but all devices removed. -/
def loc1 : LyricLocation :=
  { location_id := "L1", devices_dict := [], devices := [] }

/-- Sample location with a different id, absent from the sample snapshots. -/
def locX : LyricLocation :=
  { location_id := "L2", devices_dict := [], devices := [] }

/-- Sample location keying the leak device directly in `devices_dict`. -/
def locK : LyricLocation :=
  { location_id := "L3", devices_dict := [("d1", devLeak)], devices := [] }

/-- Sample snapshot. -/
def snap0 : Lyric :=
  { locations_dict := [("L1", loc0), ("L3", locK)],
    rooms_dict := [("AA:BB", [("1", room0)])] }

/-- Sample refreshed snapshot in which location L1 lost all its devices. -/
def snapEmpty : Lyric :=
  { locations_dict := [("L1", loc1)], rooms_dict := [] }

/-- Sample base/device adapter for the thermostat in location L1. -/
def devEnt0 : LyricEntity := LyricEntity.init loc0 devA "keyDev"

/-- Sample base adapter whose stored location id L2 is in no sample snapshot. -/
def devEntX : LyricEntity := LyricEntity.init locX devA "keyX"

/-- Sample accessory adapter for accessory 2 of room 1. -/
def accEnt0 : LyricAccessoryEntity :=
  LyricAccessoryEntity.init loc0 devA room0 acc2 "keyAcc"

/-- Sample accessory adapter for the nonexistent accessory 3. -/
def accEnt3 : LyricAccessoryEntity :=
  LyricAccessoryEntity.init loc0 devA room0 acc3 "keyAcc3"

/-- Sample leak adapter for device id d1 in location L1. -/
def leakEnt0 : LyricLeakEntity := LyricLeakEntity.init loc0 devLeak "keyLeak"

/-- Sample leak adapter for device id d0 (a device with no attributes). -/
def leakEntD0 : LyricLeakEntity := LyricLeakEntity.init loc0 devOther "keyLeak0"

/-- Sample leak adapter for device id d1 in location L3, where the keyed
lookup hits. -/
def leakEntK : LyricLeakEntity := LyricLeakEntity.init locK devLeak "keyLeakK"

/-- Sample leak adapter for device id d9, matching nothing in location L1. -/
def leakEnt9 : LyricLeakEntity :=
  { _key := "keyLeak9", _location := loc0, _device_id := "d9" }

/-- Sample base adapter agreeing with `devEnt0` on every stored identifier
but holding the different location object `loc1`. -/
def devEnt1 : LyricEntity := LyricEntity.init loc1 devA "keyDev"

/-- Sample accessory adapter agreeing with `accEnt0` on every stored
identifier but holding the different location object `loc1`. -/
def accEnt1 : LyricAccessoryEntity :=
  LyricAccessoryEntity.init loc1 devA room0 acc2 "keyAcc"

/-- Sample leak adapter agreeing with `leakEnt0` on every stored identifier
but holding the different location object `loc1`. -/
def leakEnt1 : LyricLeakEntity := LyricLeakEntity.init loc1 devLeak "keyLeak"

/-- A linear scan returns the first element satisfying the predicate: all
elements before it fail the predicate. -/
theorem find_first_of_prefix_none {α : Type} (p : α → Bool) (ys zs : List α)
    (d : α) (hys : ∀ y ∈ ys, p y = false) (hd : p d = true) :
    (ys ++ d :: zs).find? p = some d := by
  induction ys with
  | nil => simp [hd]
  | cons y ys ih =>
    have hy : p y = false := hys y (List.mem_cons_self y ys)
    rw [List.cons_append, List.find?_cons_of_neg _ (by simp [hy])]
    exact ih (fun a ha => hys a (List.mem_cons_of_mem y ha))

/-- C7: `unique_id` returns exactly the key supplied at construction for the
base/device adapter, the accessory adapter and the leak adapter; the getter
reads no snapshot argument at all, so its value is unchanged by any
replacement of the coordinator's snapshot between accesses. -/
theorem C7_unique_id_is_construction_key :
    ∀ (location : LyricLocation) (device : LyricDevice) (room : LyricRoom)
      (accessory : LyricAccessory) (key : String),
      (LyricEntity.init location device key).unique_id = key ∧
      (LyricAccessoryEntity.init location device room accessory key).base.unique_id
        = key ∧
      (LyricLeakEntity.init location device key).unique_id = key := by
  intro location device room accessory key
  exact ⟨rfl, rfl, rfl⟩

/-- C3: for an accessory adapter whose room resolves, `device_info` carries
the identifier value `mac ++ "_room" ++ room_id ++ "_accessory" ++ accessory_id`,
manufacturer "Honeywell", fixed model "RCHTSENSOR", display name
`room_name ++ " Sensor"`, and a `via_device` reference keyed by the MAC id. -/
theorem C3_accessory_device_info (e : LyricAccessoryEntity) (data : Lyric)
    (r : LyricRoom) (hroom : e.room data = .ok r) :
    e.device_info data = .ok
      { identifiers := [(CONNECTION_NETWORK_MAC ++ "_room_accessory",
          e.base._mac_id ++ "_room" ++ e._room_id ++ "_accessory"
            ++ e._accessory_id)],
        connections := [],
        manufacturer := "Honeywell",
        model := "RCHTSENSOR",
        name := r.room_name ++ " Sensor",
        via_device := some (CONNECTION_NETWORK_MAC, e.base._mac_id) } := by
  unfold LyricAccessoryEntity.device_info
  rw [hroom]

/-- Witness for C3: room "Kitchen" under MAC "AA:BB", room id 1,
accessory id 2 gives identifier value "AA:BB_room1_accessory2" and display
name "Kitchen Sensor". -/
theorem C3_accessory_device_info_witness :
    accEnt0.room snap0 = .ok room0 ∧
    accEnt0.device_info snap0 = .ok
      { identifiers := [("mac_room_accessory", "AA:BB_room1_accessory2")],
        connections := [],
        manufacturer := "Honeywell",
        model := "RCHTSENSOR",
        name := "Kitchen Sensor",
        via_device := some ("mac", "AA:BB") } :=
  ⟨rfl, C3_accessory_device_info accEnt0 snap0 room0 rfl⟩

/-- C4: for a device adapter whose device resolves, `device_info` has
identifier and connection sets each exactly the singleton
`(CONNECTION_NETWORK_MAC, mac)`, manufacturer "Honeywell", model from the
device's `device_model`, and display name `name ++ " Thermostat"`. -/
theorem C4_device_entity_device_info (e : LyricDeviceEntity) (data : Lyric)
    (d : LyricDevice) (hdev : LyricEntity.device data e = .ok d) :
    LyricDeviceEntity.device_info data e = .ok
      { identifiers := [(CONNECTION_NETWORK_MAC, e._mac_id)],
        connections := [(CONNECTION_NETWORK_MAC, e._mac_id)],
        manufacturer := "Honeywell",
        model := d.device_model,
        name := d.name ++ " Thermostat",
        via_device := none } := by
  unfold LyricDeviceEntity.device_info
  rw [hdev]

/-- Witness for C4: the thermostat named "Office" with MAC "AA:BB" gives
display name "Office Thermostat" and identifier ("mac", "AA:BB"). -/
theorem C4_device_entity_device_info_witness :
    LyricEntity.device snap0 devEnt0 = .ok devA ∧
    LyricDeviceEntity.device_info snap0 devEnt0 = .ok
      { identifiers := [("mac", "AA:BB")],
        connections := [("mac", "AA:BB")],
        manufacturer := "Honeywell",
        model := "T9",
        name := "Office Thermostat",
        via_device := none } :=
  ⟨rfl, C4_device_entity_device_info devEnt0 snap0 devA rfl⟩

/-- C5: `location` re-resolves the stored location id against the current
snapshot and raises exactly when the id is absent; `device` re-resolves the
stored MAC id against the resolved location and raises exactly when the MAC
is absent; consequently, when the device disappears from a refreshed
snapshot, a later `device` access on that snapshot raises instead of
returning the previously resolved device. -/
theorem C5_base_resolution (e : LyricEntity) (data : Lyric) :
    (dictGet data.locations_dict e._location.location_id = none →
        ∃ msg, e.location data = .error msg) ∧
    (∀ loc, dictGet data.locations_dict e._location.location_id = some loc →
        e.location data = .ok loc) ∧
    (∀ loc, e.location data = .ok loc →
        dictGet loc.devices_dict e._mac_id = none →
        ∃ msg, e.device data = .error msg) ∧
    (∀ loc d, e.location data = .ok loc →
        dictGet loc.devices_dict e._mac_id = some d →
        e.device data = .ok d) ∧
    (∀ d data2 loc2, e.device data = .ok d → e.location data2 = .ok loc2 →
        dictGet loc2.devices_dict e._mac_id = none →
        ∃ msg, e.device data2 = .error msg) := by
  refine ⟨fun h => ?_, fun loc h => ?_, fun loc h1 h2 => ?_,
    fun loc d h1 h2 => ?_, fun d data2 loc2 _ h1 h2 => ?_⟩
  · exact ⟨"KeyError", by unfold LyricEntity.location; rw [h]⟩
  · unfold LyricEntity.location; rw [h]
  · exact ⟨"KeyError", by unfold LyricEntity.device; rw [h1]; simp [h2]⟩
  · unfold LyricEntity.device; rw [h1]; simp [h2]
  · exact ⟨"KeyError", by unfold LyricEntity.device; rw [h1]; simp [h2]⟩

/-- Witness for C5: in `snap0` the adapter resolves location L1 and device
"AA:BB"; after the refresh to `snapEmpty` the device access raises; an
adapter stored with the absent location id L2 raises on `location`. -/
theorem C5_base_resolution_witness :
    devEnt0.location snap0 = .ok loc0 ∧
    devEnt0.device snap0 = .ok devA ∧
    (∃ msg, devEnt0.device snapEmpty = .error msg) ∧
    (∃ msg, devEntX.location snap0 = .error msg) :=
  ⟨(C5_base_resolution devEnt0 snap0).2.1 loc0 rfl,
   (C5_base_resolution devEnt0 snap0).2.2.2.1 loc0 devA rfl rfl,
   (C5_base_resolution devEnt0 snap0).2.2.2.2 devA snapEmpty loc1 rfl rfl rfl,
   (C5_base_resolution devEntX snap0).1 rfl⟩

/-- C1: the leak adapter's `device` first tries the keyed lookup in the
resolved location's `devices_dict`; on a miss it scans the location's
`devices` list and returns an entry whose `device_id` equals the stored id;
if no entry matches it returns `None` (absence) without raising. -/
theorem C1_leak_device_lookup (e : LyricLeakEntity) (data : Lyric)
    (loc : LyricLocation) (hloc : e.location data = .ok loc) :
    (∀ d, dictGet loc.devices_dict e._device_id = some d →
        e.device data = .ok (some d)) ∧
    (dictGet loc.devices_dict e._device_id = none →
        (∃ d ∈ loc.devices, d.device_id = e._device_id) →
        ∃ d ∈ loc.devices, d.device_id = e._device_id ∧
          e.device data = .ok (some d)) ∧
    (dictGet loc.devices_dict e._device_id = none →
        (∀ d ∈ loc.devices, d.device_id ≠ e._device_id) →
        e.device data = .ok none) := by
  refine ⟨fun d h => ?_, fun hmiss hex => ?_, fun hmiss hnone => ?_⟩
  · unfold LyricLeakEntity.device; rw [hloc]; simp [h]
  · have hdev : e.device data =
        .ok (loc.devices.find? (fun dev => dev.device_id == e._device_id)) := by
      unfold LyricLeakEntity.device; rw [hloc]; simp [hmiss]
    obtain ⟨d0, hmem, hid⟩ := hex
    cases hfind : loc.devices.find? (fun dev => dev.device_id == e._device_id) with
    | none =>
      rw [List.find?_eq_none] at hfind
      exact absurd (by simp [hid]) (hfind d0 hmem)
    | some a =>
      refine ⟨a, List.mem_of_find?_eq_some hfind, ?_, by rw [hdev, hfind]⟩
      simpa using List.find?_some hfind
  · have hfindnone :
        loc.devices.find? (fun dev => dev.device_id == e._device_id) = none :=
      List.find?_eq_none.mpr (fun x hx => by simp [hnone x hx])
    unfold LyricLeakEntity.device; rw [hloc]; simp [hmiss, hfindnone]

/-- Witness for C1: a keyed hit returns the mapped device; a keyed miss with
a matching list entry returns that entry through the scan; a keyed miss with
no matching entry yields `None` without raising. -/
theorem C1_leak_device_lookup_witness :
    leakEntK.device snap0 = .ok (some devLeak) ∧
    (∃ d ∈ loc0.devices, d.device_id = "d1" ∧
        leakEnt0.device snap0 = .ok (some d)) ∧
    leakEnt9.device snap0 = .ok none :=
  ⟨(C1_leak_device_lookup leakEntK snap0 locK rfl).1 devLeak rfl,
   (C1_leak_device_lookup leakEnt0 snap0 loc0 rfl).2.1 rfl
     ⟨devLeak, by decide, rfl⟩,
   (C1_leak_device_lookup leakEnt9 snap0 loc0 rfl).2.2 rfl (by decide)⟩

/-- C10: when the keyed lookup misses and the devices list holds several
entries matching the stored id, the fallback scan returns the first match
in list order. -/
theorem C10_leak_scan_returns_first_duplicate (e : LyricLeakEntity)
    (data : Lyric) (loc : LyricLocation) (ys zs : List LyricDevice)
    (d : LyricDevice) (hloc : e.location data = .ok loc)
    (hmiss : dictGet loc.devices_dict e._device_id = none)
    (hsplit : loc.devices = ys ++ d :: zs)
    (hd : d.device_id = e._device_id)
    (hys : ∀ y ∈ ys, y.device_id ≠ e._device_id)
    (_hdup : ∃ d2 ∈ zs, d2.device_id = e._device_id) :
    e.device data = .ok (some d) := by
  have hdev : e.device data =
      .ok (loc.devices.find? (fun dev => dev.device_id == e._device_id)) := by
    unfold LyricLeakEntity.device; rw [hloc]; simp [hmiss]
  rw [hdev, hsplit, find_first_of_prefix_none _ ys zs d
    (fun y hy => by simp [hys y hy]) (by simp [hd])]

/-- Witness for C10: with devices [d0, d1 named Leak1, d1 named Leak2] and a
keyed miss for d1, the scan returns the earlier d1 entry (Leak1). -/
theorem C10_leak_scan_returns_first_duplicate_witness :
    leakEnt0.device snap0 = .ok (some devLeak) :=
  C10_leak_scan_returns_first_duplicate leakEnt0 snap0 loc0
    [devOther] [devLeak2] devLeak rfl rfl rfl rfl (by decide)
    ⟨devLeak2, by decide, rfl⟩

/-- C6: the accessory adapter's `accessory` scans the resolved room's
accessory collection and returns an accessory whose id equals the stored
accessory id; when none matches, the access raises with no fallback. -/
theorem C6_accessory_scan (e : LyricAccessoryEntity) (data : Lyric)
    (r : LyricRoom) (hroom : e.room data = .ok r) :
    ((∃ a ∈ r.accessories, a.id = e._accessory_id) →
        ∃ a ∈ r.accessories, a.id = e._accessory_id ∧
          e.accessory data = .ok a) ∧
    ((∀ a ∈ r.accessories, a.id ≠ e._accessory_id) →
        ∃ msg, e.accessory data = .error msg) := by
  refine ⟨fun hex => ?_, fun hnone => ?_⟩
  · obtain ⟨a0, hmem, hid⟩ := hex
    cases hfind : r.accessories.find? (fun a => a.id == e._accessory_id) with
    | none =>
      rw [List.find?_eq_none] at hfind
      exact absurd (by simp [hid]) (hfind a0 hmem)
    | some a =>
      refine ⟨a, List.mem_of_find?_eq_some hfind, ?_, ?_⟩
      · simpa using List.find?_some hfind
      · unfold LyricAccessoryEntity.accessory; rw [hroom]; simp [hfind]
  · have hfindnone :
        r.accessories.find? (fun a => a.id == e._accessory_id) = none :=
      List.find?_eq_none.mpr (fun x hx => by simp [hnone x hx])
    exact ⟨"StopIteration", by
      unfold LyricAccessoryEntity.accessory; rw [hroom]; simp [hfindnone]⟩

/-- Witness for C6: in a room with accessories 1 and 2, the adapter for id 2
resolves accessory 2; the adapter for the nonexistent id 3 raises. -/
theorem C6_accessory_scan_witness :
    (∃ a ∈ room0.accessories, a.id = "2" ∧
        accEnt0.accessory snap0 = .ok a) ∧
    (∃ msg, accEnt3.accessory snap0 = .error msg) :=
  ⟨(C6_accessory_scan accEnt0 snap0 room0 rfl).1 ⟨acc2, by decide, rfl⟩,
   (C6_accessory_scan accEnt3 snap0 room0 rfl).2 (by decide)⟩

/-- C2: when the leak adapter's device resolves and its attributes hold a
well-formed deviceSettings mapping with a userDefinedName entry, the
descriptor's display name is that value, a space, and the device type;
when deviceSettings is absent, is a plain string, or lacks userDefinedName,
the computation raises instead. -/
theorem C2_leak_device_info_name (e : LyricLeakEntity) (data : Lyric)
    (d : LyricDevice) (hdev : e.device data = .ok (some d)) :
    (∀ settings udn,
        dictGet d.attributes "deviceSettings" = some (.obj settings) →
        dictGet settings "userDefinedName" = some udn →
        ∃ info, e.device_info data = .ok info ∧
          info.name = udn ++ " " ++ d.device_type) ∧
    (dictGet d.attributes "deviceSettings" = none →
        ∃ msg, e.device_info data = .error msg) ∧
    (∀ s, dictGet d.attributes "deviceSettings" = some (.str s) →
        ∃ msg, e.device_info data = .error msg) ∧
    (∀ settings, dictGet d.attributes "deviceSettings" = some (.obj settings) →
        dictGet settings "userDefinedName" = none →
        ∃ msg, e.device_info data = .error msg) := by
  refine ⟨fun settings udn h1 h2 => ?_, fun h1 => ?_, fun s h1 => ?_,
    fun settings h1 h2 => ?_⟩
  · refine ⟨DeviceInfo.mk [(DOMAIN, e._device_id)] [] "Honeywell"
      d.device_type (udn ++ " " ++ d.device_type) none, ?_, rfl⟩
    unfold LyricLeakEntity.device_info; rw [hdev]; simp [h1, h2]
  · exact ⟨"TypeError", by
      unfold LyricLeakEntity.device_info; rw [hdev]; simp [h1]⟩
  · exact ⟨"TypeError", by
      unfold LyricLeakEntity.device_info; rw [hdev]; simp [h1]⟩
  · exact ⟨"KeyError", by
      unfold LyricLeakEntity.device_info; rw [hdev]; simp [h1, h2]⟩

/-- Witness for C2: the leak device named "Basement" of type
WaterLeakDetector yields display name "Basement WaterLeakDetector"; a leak
device with no deviceSettings attribute raises. -/
theorem C2_leak_device_info_name_witness :
    (∃ info, leakEnt0.device_info snap0 = .ok info ∧
        info.name = "Basement WaterLeakDetector") ∧
    (∃ msg, leakEntD0.device_info snap0 = .error msg) := by
  constructor
  · obtain ⟨info, h1, h2⟩ :=
      (C2_leak_device_info_name leakEnt0 snap0 devLeak rfl).1
        [("userDefinedName", "Basement")] "Basement" rfl rfl
    exact ⟨info, h1, h2.trans (by decide)⟩
  · exact (C2_leak_device_info_name leakEntD0 snap0 devOther rfl).2.1 rfl

/-- C9: when the leak adapter's `device` yields absence (`None`), accessing
`device_info` raises (the absent device's type is dereferenced) instead of
producing a descriptor or yielding absence. -/
theorem C9_leak_device_info_raises_when_device_absent (e : LyricLeakEntity)
    (data : Lyric) (hdev : e.device data = .ok none) :
    ∃ msg, e.device_info data = .error msg :=
  ⟨"AttributeError", by unfold LyricLeakEntity.device_info; rw [hdev]⟩

/-- Witness for C9: after the refresh to the empty snapshot the leak
adapter's device is absent and `device_info` raises. -/
theorem C9_leak_device_info_raises_when_device_absent_witness :
    leakEnt0.device snapEmpty = .ok none ∧
    ∃ msg, leakEnt0.device_info snapEmpty = .error msg :=
  ⟨rfl, C9_leak_device_info_raises_when_device_absent leakEnt0 snapEmpty rfl⟩

/-- C8: every property is a pure read, determined by the adapter's stored
identifiers and the current snapshot alone. The embedding is pure because
the getter bodies contain no mutating statement, so no access changes the
snapshot or the stored fields; this theorem states the remaining content:
two adapters agreeing on their stored identifiers are indistinguishable
through every property on every snapshot, so the location object kept at
construction contributes nothing beyond its identifier (no entity reference
is effectively cached) and all entity data flows from the current snapshot. -/
theorem C8_properties_depend_only_on_identifiers
    (e1 e2 : LyricEntity) (a1 a2 : LyricAccessoryEntity)
    (l1 l2 : LyricLeakEntity) (data : Lyric)
    (he : e1.ids = e2.ids) (ha : a1.ids = a2.ids) (hl : l1.ids = l2.ids) :
    e1.unique_id = e2.unique_id ∧
    e1.location data = e2.location data ∧
    e1.device data = e2.device data ∧
    LyricDeviceEntity.device_info data e1 = LyricDeviceEntity.device_info data e2 ∧
    a1.room data = a2.room data ∧
    a1.accessory data = a2.accessory data ∧
    a1.device_info data = a2.device_info data ∧
    l1.unique_id = l2.unique_id ∧
    l1.location data = l2.location data ∧
    l1.device data = l2.device data ∧
    l1.device_info data = l2.device_info data := by
  obtain ⟨hk, hlid, hmac⟩ :
      e1._key = e2._key ∧
        e1._location.location_id = e2._location.location_id ∧
        e1._mac_id = e2._mac_id := by
    simpa [LyricEntity.ids, Prod.ext_iff] using he
  obtain ⟨⟨hak, halid, hamac⟩, haroom, haacc⟩ :
      (a1.base._key = a2.base._key ∧
        a1.base._location.location_id = a2.base._location.location_id ∧
        a1.base._mac_id = a2.base._mac_id) ∧
      a1._room_id = a2._room_id ∧ a1._accessory_id = a2._accessory_id := by
    simpa [LyricAccessoryEntity.ids, LyricEntity.ids, Prod.ext_iff] using ha
  obtain ⟨hlk, hllid, hldid⟩ :
      l1._key = l2._key ∧
        l1._location.location_id = l2._location.location_id ∧
        l1._device_id = l2._device_id := by
    simpa [LyricLeakEntity.ids, Prod.ext_iff] using hl
  refine ⟨hk, ?_, ?_, ?_, ?_, ?_, ?_, hlk, ?_, ?_, ?_⟩
  · simp only [LyricEntity.location, hlid]
  · simp only [LyricEntity.device, LyricEntity.location, hlid, hmac]
  · simp only [LyricDeviceEntity.device_info, LyricEntity.device,
      LyricEntity.location, hlid, hmac]
  · simp only [LyricAccessoryEntity.room, hamac, haroom]
  · simp only [LyricAccessoryEntity.accessory, LyricAccessoryEntity.room,
      hamac, haroom, haacc]
  · simp only [LyricAccessoryEntity.device_info, LyricAccessoryEntity.room,
      hamac, haroom, haacc]
  · simp only [LyricLeakEntity.location, hllid]
  · simp only [LyricLeakEntity.device, LyricLeakEntity.location, hllid, hldid]
  · simp only [LyricLeakEntity.device_info, LyricLeakEntity.device,
      LyricLeakEntity.location, hllid, hldid]

/-- Witness for C8: adapters that store the distinct location objects `loc0`
and `loc1` but agree on all identifiers produce identical results for every
property on the sample snapshot. -/
theorem C8_properties_depend_only_on_identifiers_witness :
    devEnt0.unique_id = devEnt1.unique_id ∧
    devEnt0.location snap0 = devEnt1.location snap0 ∧
    devEnt0.device snap0 = devEnt1.device snap0 ∧
    LyricDeviceEntity.device_info snap0 devEnt0
      = LyricDeviceEntity.device_info snap0 devEnt1 ∧
    accEnt0.room snap0 = accEnt1.room snap0 ∧
    accEnt0.accessory snap0 = accEnt1.accessory snap0 ∧
    accEnt0.device_info snap0 = accEnt1.device_info snap0 ∧
    leakEnt0.unique_id = leakEnt1.unique_id ∧
    leakEnt0.location snap0 = leakEnt1.location snap0 ∧
    leakEnt0.device snap0 = leakEnt1.device snap0 ∧
    leakEnt0.device_info snap0 = leakEnt1.device_info snap0 :=
  C8_properties_depend_only_on_identifiers devEnt0 devEnt1 accEnt0 accEnt1
    leakEnt0 leakEnt1 snap0 rfl rfl rfl
